import Mathlib

/-!
Verification of the lnd Prometheus exporter's collection orchestrator
(`collector.go`, `exporter.go`) against its natural-language specification.

The Go code is shallowly embedded: `Collect` becomes a pure function
`collectTrace` from the exporter configuration, the connection environment,
and the set of RPC responses to the ordered list of observable events of one
scrape (lock/unlock of the exclusive session lock, connection open/close,
RPC calls issued, and metric samples sent on the channel).  RPC calls that
can fail are modelled by `Option`-valued responses supplied as input; metric
values are rationals (the Go code only converts integers and divides two
such conversions, so the rational value is the exact intended value).
-/

/-- Value kind of a sample: `prometheus.GaugeValue` or `prometheus.CounterValue`. -/
inductive ValueKind where
  | gauge
  | counter
deriving DecidableEq, Repr

/-- Embeds `prometheus.Desc` as built by `newGlobalMetric`: full metric name,
help string, and the ordered label names (`collector.go` line 33). -/
structure MetricDesc where
  name : String
  help : String
  labelNames : List String
deriving DecidableEq, Repr

/-- Embeds `newGlobalMetric(namespace, metricName, docString, labels)`
(`collector.go` lines 33-35): the metric name is `namespace + "_" + metricName`. -/
def newGlobalMetric (ns : String) (metricName : String) (docString : String)
    (labels : List String) : MetricDesc :=
  { name := ns ++ "_" ++ metricName, help := docString, labelNames := labels }

/-- One metric sample as produced by `prometheus.MustNewConstMetric`: the
descriptor, the value kind, the numeric value, and the ordered label values. -/
structure Sample where
  desc : MetricDesc
  kind : ValueKind
  value : ℚ
  labelValues : List String
deriving DecidableEq, Repr

/-- The fixed metric table built in `NewLightningExporter`
(`collector.go` lines 44-80), key by key in source order. -/
def metricsTable (ns : String) : List (String × MetricDesc) :=
  [ ("lnd_up", newGlobalMetric ns "lnd_up" "up" []),
    ("forwarding_history_info", newGlobalMetric ns "forwarding_history_info"
      "forwarding_history_info"
      ["peer_alias_in", "peer_alias_out", "amount_in", "amount_out", "fee",
       "channel_id_in", "channel_id_out", "timestamp_ns"]),
    ("network_capacity_sats_total", newGlobalMetric ns "network_capacity_sats_total"
      "network_capacity_sats_total" []),
    ("network_channels_total", newGlobalMetric ns "network_channels_total"
      "network_channels_total" []),
    ("network_nodes_total", newGlobalMetric ns "network_nodes_total"
      "network_nodes_total" []),
    ("instance_info", newGlobalMetric ns "instance_info" "instance_info"
      ["alias", "pubkey", "version"]),
    ("wallet_balance_sats", newGlobalMetric ns "wallet_balance_sats"
      "The wallet balance." ["status"]),
    ("peers", newGlobalMetric ns "peers" "Number of currently connected peers." []),
    ("channels", newGlobalMetric ns "channels" "Number of channels" ["status"]),
    ("block_height", newGlobalMetric ns "block_height"
      "The node’s current view of the height of the best block" []),
    ("synced_to_chain", newGlobalMetric ns "synced_to_chain"
      "The node’s current view of the height of the best block" []),
    ("channel_limbo_balance_sats", newGlobalMetric ns "channel_limbo_balance_sats"
      "The balance in satoshis encumbered in pending channels" []),
    ("channels_pending", newGlobalMetric ns "channel_pending"
      "The total pending channels" ["status", "forced"]),
    ("channels_waiting_close", newGlobalMetric ns "channel_waiting_close"
      "Channels waiting for closing tx to confirm" []),
    ("channels_balance_sats", newGlobalMetric ns "channels_balance_sats"
      "Sum of all channel funds available" []),
    ("channel_balance_sats", newGlobalMetric ns "channel_balance_sats"
      "The channel local balance"
      ["active", "remote_pubkey", "chan_point", "chan_id", "capacity", "commit_fee",
       "private", "initiator"]),
    ("channel_balance_percentage", newGlobalMetric ns "channel_balance_percentage"
      "The channel local balance"
      ["active", "remote_pubkey", "chan_point", "chan_id", "capacity", "commit_fee",
       "private", "initiator"]),
    ("peer_info", newGlobalMetric ns "peer_info" "peer_info"
      ["addr", "remote_pubkey", "direction"]),
    ("peer_info_received_bytes_total", newGlobalMetric ns
      "peer_info_received_bytes_total" "peer_info_received_bytes_total" ["addr"]),
    ("peer_info_sent_bytes_total", newGlobalMetric ns
      "peer_info_sent_bytes_total" "peer_info_sent_bytes_total" ["addr"]) ]

/-- Embeds the `LndExporter` struct (`collector.go` lines 19-31): the metric
map, the connection configuration, the stored (never read) timeout, and the
two probe feature flags. -/
structure LndExporter where
  metrics : List (String × MetricDesc)
  rpcAddr : String
  tlsCertPath : String
  macaroonPath : String
  timeout : Nat
  exportPeerMetrics : Bool
  exportPaymentMetrics : Bool
deriving DecidableEq, Repr

/-- Embeds `NewLightningExporter` (`collector.go` lines 37-85).  Note that
`exportPaymentMetrics` is hard-coded to `true` by the constructor. -/
def NewLightningExporter (ns : String) (rpcAddr : String) (tlsCertPath : String)
    (macaroonPath : String) (timeout : Nat) (exportPeerMetrics : Bool) : LndExporter :=
  { metrics := metricsTable ns,
    rpcAddr := rpcAddr,
    tlsCertPath := tlsCertPath,
    macaroonPath := macaroonPath,
    timeout := timeout,
    exportPeerMetrics := exportPeerMetrics,
    exportPaymentMetrics := true }

/-- Map lookup `c.metrics[key]`, as used by every `MustNewConstMetric` call in
`Collect`.  A missing key yields the degenerate empty descriptor (Go would
yield a nil pointer); the constructor-built table contains every key used. -/
def getMetric (c : LndExporter) (key : String) : MetricDesc :=
  (((c.metrics.find? (fun p => p.1 = key)).map Prod.snd).getD ⟨"", "", []⟩)

/-- Embeds `Describe` (`collector.go` lines 87-91): it sends every descriptor
of the metric map, touching no other state. -/
def Describe (c : LndExporter) : List MetricDesc :=
  c.metrics.map Prod.snd

/-- Embeds `boolToFloat` (`collector.go` lines 93-99). -/
def boolToFloat (b : Bool) : ℚ :=
  if !b then 0 else 1

/-- Environment of `getGrpcClient` (`collector.go` lines 101-138): whether
each of its five fallible steps (TLS credentials from file, macaroon file
read, macaroon unmarshal, macaroon credential construction, dial) succeeds. -/
structure GrpcEnv where
  tlsCredsOk : Bool
  macaroonReadOk : Bool
  macaroonUnmarshalOk : Bool
  macaroonCredOk : Bool
  dialOk : Bool
deriving DecidableEq, Repr

/-- Embeds `getGrpcClient` (`collector.go` lines 101-138): it returns a
connection exactly when all five steps succeed, checked in source order. -/
def getGrpcClient (env : GrpcEnv) : Option Unit :=
  if !env.tlsCredsOk then none
  else if !env.macaroonReadOk then none
  else if !env.macaroonUnmarshalOk then none
  else if !env.macaroonCredOk then none
  else if !env.dialOk then none
  else some ()

/-- Response of `rpcClient.GetInfo` (the fields `Collect` reads). -/
structure GetInfoResponse where
  Alias : String
  identityPubkey : String
  version : String
  numPeers : Nat
  numActiveChannels : Nat
  numPendingChannels : Nat
  numInactiveChannels : Nat
  blockHeight : Nat
  syncedToChain : Bool
deriving DecidableEq, Repr

/-- Response of `rpcClient.WalletBalance`. -/
structure WalletBalanceResponse where
  unconfirmedBalance : Int
  confirmedBalance : Int
deriving DecidableEq, Repr

/-- Response of `rpcClient.PendingChannels`; `Collect` reads only the limbo
balance and the lengths of the four channel lists, so the list elements are
opaque. -/
structure PendingChannelsResponse where
  totalLimboBalance : Int
  pendingOpenChannels : List Unit
  pendingClosingChannels : List Unit
  pendingForceClosingChannels : List Unit
  waitingCloseChannels : List Unit
deriving DecidableEq, Repr

/-- Response of `rpcClient.ChannelBalance`. -/
structure ChannelBalanceResponse where
  balance : Int
deriving DecidableEq, Repr

/-- One forwarding event of `rpcClient.ForwardingHistory` (the fields read at
`collector.go` lines 221-232; the numeric fields are uint64). -/
structure ForwardingEvent where
  peerAliasIn : String
  peerAliasOut : String
  amtIn : Nat
  amtOut : Nat
  fee : Nat
  chanIdIn : Nat
  chanIdOut : Nat
  timestampNs : Nat
deriving DecidableEq, Repr

/-- Response of `rpcClient.ForwardingHistory`. -/
structure ForwardingHistoryResponse where
  forwardingEvents : List ForwardingEvent
deriving DecidableEq, Repr

/-- Response of `rpcClient.GetNetworkInfo`. -/
structure NetworkInfoResponse where
  totalNetworkCapacity : Int
  numChannels : Nat
  numNodes : Nat
deriving DecidableEq, Repr

/-- One channel of `rpcClient.ListChannels` (the fields read at
`collector.go` lines 249-270; `Capacity`, `CommitFee`, `LocalBalance` are
int64). -/
structure Channel where
  active : Bool
  remotePubkey : String
  channelPoint : String
  chanId : Nat
  capacity : Int
  commitFee : Int
  localBalance : Int
  Private : Bool
  initiator : Bool
deriving DecidableEq, Repr

/-- Response of `rpcClient.ListChannels`. -/
structure ListChannelsResponse where
  channels : List Channel
deriving DecidableEq, Repr

/-- One peer of `rpcClient.ListPeers` (the fields read at
`collector.go` lines 279-293). -/
structure Peer where
  pubKey : String
  address : String
  bytesSent : Nat
  bytesRecv : Nat
  inbound : Bool
deriving DecidableEq, Repr

/-- Response of `rpcClient.ListPeers`. -/
structure ListPeersResponse where
  peers : List Peer
deriving DecidableEq, Repr

/-- The outcome of each of the eight RPC calls a scrape may issue; `none`
means the call returned an error (including a deadline-expiry or
cancellation error of the shared 15-second context). -/
structure RpcResponses where
  getInfo : Option GetInfoResponse
  walletBalance : Option WalletBalanceResponse
  pendingChannels : Option PendingChannelsResponse
  channelBalance : Option ChannelBalanceResponse
  forwardingHistory : Option ForwardingHistoryResponse
  getNetworkInfo : Option NetworkInfoResponse
  listChannels : Option ListChannelsResponse
  listPeers : Option ListPeersResponse
deriving DecidableEq, Repr

/-- The eight RPC methods `Collect` can invoke, in source order. -/
inductive RpcMethod where
  | getInfo
  | walletBalance
  | pendingChannels
  | channelBalance
  | forwardingHistory
  | getNetworkInfo
  | listChannels
  | listPeers
deriving DecidableEq, Repr

/-- Embeds `strconv.FormatUint(n, 10)`. -/
def formatUint (n : Nat) : String :=
  toString n

/-- Embeds `strconv.FormatInt(i, 10)`. -/
def formatInt (i : Int) : String :=
  toString i

/-- Embeds `strconv.FormatBool`. -/
def formatBool (b : Bool) : String :=
  if b then "true" else "false"

/-- One observable event of a scrape: acquiring/releasing the exclusive
session lock, opening/closing the gRPC connection, arming the shared
session deadline, issuing an RPC call, or sending a sample on the metric
channel. -/
inductive ScrapeEvent where
  | lock
  | unlock
  | connOpen
  | connClose
  | setDeadline (seconds : Nat)
  | rpcCall (m : RpcMethod)
  | emit (s : Sample)
deriving DecidableEq, Repr

/-- The liveness sample (`c.metrics["lnd_up"]`, gauge, no labels). -/
def upSample (c : LndExporter) (v : ℚ) : Sample :=
  ⟨getMetric c "lnd_up", .gauge, v, []⟩

/-- The session deadline hard-coded at `collector.go` line 154:
`context.WithTimeout(context.Background(), 15*time.Second)`. -/
def collectTimeoutSeconds : Nat :=
  15

/-- Samples of the node-status probe (`collector.go` lines 166-183),
emitted unconditionally once `GetInfo` has succeeded. -/
def getInfoSamples (c : LndExporter) (stats : GetInfoResponse) : List Sample :=
  [ ⟨getMetric c "instance_info", .gauge, 1,
      [stats.Alias, stats.identityPubkey, stats.version]⟩,
    ⟨getMetric c "peers", .gauge, (stats.numPeers : ℚ), []⟩,
    ⟨getMetric c "channels", .gauge, (stats.numActiveChannels : ℚ), ["active"]⟩,
    ⟨getMetric c "channels", .gauge, (stats.numPendingChannels : ℚ), ["pending"]⟩,
    ⟨getMetric c "channels", .gauge, (stats.numInactiveChannels : ℚ), ["inactive"]⟩,
    ⟨getMetric c "block_height", .gauge, (stats.blockHeight : ℚ), []⟩,
    ⟨getMetric c "synced_to_chain", .gauge, boolToFloat stats.syncedToChain, []⟩ ]

/-- Samples of the wallet-balance probe (`collector.go` lines 185-192):
empty when the call failed. -/
def walletBalanceSamples (c : LndExporter) (resp : Option WalletBalanceResponse) :
    List Sample :=
  match resp with
  | some w =>
    [ ⟨getMetric c "wallet_balance_sats", .gauge, (w.unconfirmedBalance : ℚ), ["unconfirmed"]⟩,
      ⟨getMetric c "wallet_balance_sats", .gauge, (w.confirmedBalance : ℚ), ["confirmed"]⟩ ]
  | none => []

/-- Samples of the pending-channels probe (`collector.go` lines 194-207):
empty when the call failed. -/
def pendingChannelsSamples (c : LndExporter) (resp : Option PendingChannelsResponse) :
    List Sample :=
  match resp with
  | some p =>
    [ ⟨getMetric c "channel_limbo_balance_sats", .gauge, (p.totalLimboBalance : ℚ), []⟩,
      ⟨getMetric c "channels_pending", .gauge, (p.pendingOpenChannels.length : ℚ),
        ["opening", "false"]⟩,
      ⟨getMetric c "channels_pending", .gauge, (p.pendingClosingChannels.length : ℚ),
        ["closing", "false"]⟩,
      ⟨getMetric c "channels_pending", .gauge, (p.pendingForceClosingChannels.length : ℚ),
        ["closing", "true"]⟩,
      ⟨getMetric c "channels_waiting_close", .gauge, (p.waitingCloseChannels.length : ℚ), []⟩ ]
  | none => []

/-- Samples of the aggregate channel-balance probe (`collector.go`
lines 209-214): empty when the call failed. -/
def channelsBalanceSamples (c : LndExporter) (resp : Option ChannelBalanceResponse) :
    List Sample :=
  match resp with
  | some b => [ ⟨getMetric c "channels_balance_sats", .gauge, (b.balance : ℚ), []⟩ ]
  | none => []

/-- Samples of the forwarding-history probe (`collector.go` lines 220-236):
one sample per forwarding event, empty when the call failed. -/
def forwardingHistorySamples (c : LndExporter) (resp : Option ForwardingHistoryResponse) :
    List Sample :=
  match resp with
  | some h =>
    h.forwardingEvents.map fun f =>
      ⟨getMetric c "forwarding_history_info", .gauge, 1,
        [f.peerAliasIn, f.peerAliasOut, formatUint f.amtIn, formatUint f.amtOut,
         formatUint f.fee, formatUint f.chanIdIn, formatUint f.chanIdOut,
         formatUint f.timestampNs]⟩
  | none => []

/-- Samples of the network-wide totals probe (`collector.go` lines 239-246):
empty when the call failed. -/
def networkInfoSamples (c : LndExporter) (resp : Option NetworkInfoResponse) :
    List Sample :=
  match resp with
  | some n =>
    [ ⟨getMetric c "network_capacity_sats_total", .gauge, (n.totalNetworkCapacity : ℚ), []⟩,
      ⟨getMetric c "network_channels_total", .gauge, (n.numChannels : ℚ), []⟩,
      ⟨getMetric c "network_nodes_total", .gauge, (n.numNodes : ℚ), []⟩ ]
  | none => []

/-- Samples for one open channel of the channel-list probe (`collector.go`
lines 249-271): the balance-ratio sample exactly when the real capacity
(capacity minus commit fee) is strictly positive, then the balance sample. -/
def chanSamples (c : LndExporter) (ch : Channel) : List Sample :=
  let lbls : List String :=
    [formatBool ch.active, ch.remotePubkey, ch.channelPoint, formatUint ch.chanId,
     formatInt ch.capacity, formatInt ch.commitFee, formatBool ch.Private,
     formatBool ch.initiator]
  let realCapacity : ℚ := (ch.capacity : ℚ) - (ch.commitFee : ℚ)
  (if realCapacity > 0 then
    [ ⟨getMetric c "channel_balance_percentage", .gauge,
        (ch.localBalance : ℚ) / realCapacity, lbls⟩ ]
   else []) ++
  [ ⟨getMetric c "channel_balance_sats", .gauge, (ch.localBalance : ℚ), lbls⟩ ]

/-- Samples of the channel-list probe (`collector.go` lines 248-274):
empty when the call failed. -/
def listChannelsSamples (c : LndExporter) (resp : Option ListChannelsResponse) :
    List Sample :=
  match resp with
  | some s => s.channels.flatMap (chanSamples c)
  | none => []

/-- Samples for one peer of the peer-list probe (`collector.go`
lines 279-294). -/
def peerSamples (c : LndExporter) (peer : Peer) : List Sample :=
  let dir : String := if peer.inbound then "inbound" else "outbound"
  [ ⟨getMetric c "peer_info", .gauge, 1, [peer.address, peer.pubKey, dir]⟩,
    ⟨getMetric c "peer_info_received_bytes_total", .counter, (peer.bytesRecv : ℚ),
      [peer.address]⟩,
    ⟨getMetric c "peer_info_sent_bytes_total", .counter, (peer.bytesSent : ℚ),
      [peer.address]⟩ ]

/-- Samples of the peer-list probe (`collector.go` lines 277-297): empty when
the call failed. -/
def listPeersSamples (c : LndExporter) (resp : Option ListPeersResponse) : List Sample :=
  match resp with
  | some s => s.peers.flatMap (peerSamples c)
  | none => []

/-- Trace segment of one skippable probe: the RPC call event followed by the
emission of each of its samples. -/
def probeTrace (m : RpcMethod) (samples : List Sample) : List ScrapeEvent :=
  .rpcCall m :: samples.map .emit

/-- Events of the seven skippable probes of `Collect` (`collector.go`
lines 185-298), in source order; the forwarding-history probe runs only when
`exportPaymentMetrics` is set, the peer-list probe only when
`exportPeerMetrics` is set. -/
def probesBody (c : LndExporter) (r : RpcResponses) : List ScrapeEvent :=
  probeTrace .walletBalance (walletBalanceSamples c r.walletBalance) ++
  probeTrace .pendingChannels (pendingChannelsSamples c r.pendingChannels) ++
  probeTrace .channelBalance (channelsBalanceSamples c r.channelBalance) ++
  (if c.exportPaymentMetrics then
    probeTrace .forwardingHistory (forwardingHistorySamples c r.forwardingHistory)
   else []) ++
  probeTrace .getNetworkInfo (networkInfoSamples c r.getNetworkInfo) ++
  probeTrace .listChannels (listChannelsSamples c r.listChannels) ++
  (if c.exportPeerMetrics then
    probeTrace .listPeers (listPeersSamples c r.listPeers)
   else [])

/-- Embeds `Collect` (`collector.go` lines 140-301) as the ordered list of
observable events of one scrape.  The deferred `c.Unlock()` (line 142) and
`con.Close()` (line 151) run in LIFO order on every return path, so each
return materialises as `connClose` (when a connection was opened) followed by
`unlock`. -/
def collectTrace (c : LndExporter) (env : GrpcEnv) (r : RpcResponses) :
    List ScrapeEvent :=
  .lock ::
    match getGrpcClient env with
    | none => [.emit (upSample c 0), .unlock]
    | some _ =>
      .connOpen :: .setDeadline collectTimeoutSeconds :: .rpcCall .getInfo ::
        match r.getInfo with
        | none => [.emit (upSample c 0), .connClose, .unlock]
        | some stats =>
          (getInfoSamples c stats).map .emit ++
          probesBody c r ++
          [.emit (upSample c 1), .connClose, .unlock]

/-- Projection of a trace event to the sample it sends, if any. -/
def emitted : ScrapeEvent → Option Sample
  | .emit s => some s
  | _ => none

/-- The samples a scrape sends on the metric channel, in order. -/
def collectSamples (c : LndExporter) (env : GrpcEnv) (r : RpcResponses) : List Sample :=
  (collectTrace c env r).filterMap emitted

/-- Projection of a trace event to the RPC method it calls, if any. -/
def callOf : ScrapeEvent → Option RpcMethod
  | .rpcCall m => some m
  | _ => none

/-- The RPC calls a scrape issues, in order. -/
def tracedCalls (tr : List ScrapeEvent) : List RpcMethod :=
  tr.filterMap callOf

/-- Identity of one of two concurrent scrape requests. -/
inductive Tid where
  | A
  | B
deriving DecidableEq, Repr

/-- Shared state of two concurrent scrapes: the events each scrape still has
to perform and the current holder of the exporter's mutex. -/
structure MuxState where
  remA : List ScrapeEvent
  remB : List ScrapeEvent
  owner : Option Tid
deriving DecidableEq, Repr

/-- Interleaving semantics of two scrapes sharing the exporter's
`sync.Mutex`: a `lock` event needs the mutex free and takes it, an `unlock`
event needs the mutex held by the same scrape and frees it, and any other
event of a scrape just runs.  The scheduler is free to pick either scrape at
every step. -/
inductive MuxStep : MuxState → Tid × ScrapeEvent → MuxState → Prop where
  | lockA (ra rb : List ScrapeEvent) :
      MuxStep ⟨.lock :: ra, rb, none⟩ (.A, .lock) ⟨ra, rb, some .A⟩
  | unlockA (ra rb : List ScrapeEvent) :
      MuxStep ⟨.unlock :: ra, rb, some .A⟩ (.A, .unlock) ⟨ra, rb, none⟩
  | stepA (e : ScrapeEvent) (ra rb : List ScrapeEvent) (ow : Option Tid) :
      e ≠ .lock → e ≠ .unlock → MuxStep ⟨e :: ra, rb, ow⟩ (.A, e) ⟨ra, rb, ow⟩
  | lockB (ra rb : List ScrapeEvent) :
      MuxStep ⟨ra, .lock :: rb, none⟩ (.B, .lock) ⟨ra, rb, some .B⟩
  | unlockB (ra rb : List ScrapeEvent) :
      MuxStep ⟨ra, .unlock :: rb, some .B⟩ (.B, .unlock) ⟨ra, rb, none⟩
  | stepB (e : ScrapeEvent) (ra rb : List ScrapeEvent) (ow : Option Tid) :
      e ≠ .lock → e ≠ .unlock → MuxStep ⟨ra, e :: rb, ow⟩ (.B, e) ⟨ra, rb, ow⟩

/-- A finite run of the interleaving semantics, recording the schedule. -/
inductive MuxRun : MuxState → List (Tid × ScrapeEvent) → MuxState → Prop where
  | nil (s : MuxState) : MuxRun s [] s
  | cons {s s' s'' : MuxState} {te : Tid × ScrapeEvent} {l : List (Tid × ScrapeEvent)} :
      MuxStep s te s' → MuxRun s' l s'' → MuxRun s (te :: l) s''

def specimenExporter : LndExporter :=
  NewLightningExporter "lnd" "localhost:10009" "tls.cert" "admin.macaroon" 15 true

def specimenExporterNoFwd : LndExporter :=
  { specimenExporter with exportPaymentMetrics := false }

def specimenEnv : GrpcEnv := ⟨true, true, true, true, true⟩

def specimenEnvTlsFail : GrpcEnv := ⟨false, true, true, true, true⟩

def specimenInfo : GetInfoResponse := ⟨"alice", "02abc", "0.17.0", 5, 2, 1, 0, 800000, true⟩

def specimenChannels : ListChannelsResponse :=
  ⟨[⟨true, "02rp", "cp:0", 7, 100, 10, 45, false, true⟩,
    ⟨true, "02rp2", "cp:1", 8, 10, 10, 45, false, true⟩]⟩

def specimenResponses : RpcResponses :=
  { getInfo := some specimenInfo,
    walletBalance := none,
    pendingChannels := some ⟨12, [()], [], [()], [(), ()]⟩,
    channelBalance := some ⟨99⟩,
    forwardingHistory := some ⟨[⟨"x", "y", 1, 2, 3, 4, 5, 6⟩]⟩,
    getNetworkInfo := some ⟨1000, 20, 30⟩,
    listChannels := some specimenChannels,
    listPeers := some ⟨[⟨"02pk", "1.2.3.4:9735", 11, 12, true⟩]⟩ }

/-! Computation of each `c.metrics[key]` lookup `Collect` performs, for a
constructor-built exporter. -/

lemma getMetric_up (ns a b m : String) (t : Nat) (p : Bool) :
    getMetric (NewLightningExporter ns a b m t p) "lnd_up" =
      newGlobalMetric ns "lnd_up" "up" [] := by
  simp [getMetric, NewLightningExporter, metricsTable]

lemma getMetric_fwd (ns a b m : String) (t : Nat) (p : Bool) :
    getMetric (NewLightningExporter ns a b m t p) "forwarding_history_info" =
      newGlobalMetric ns "forwarding_history_info" "forwarding_history_info" ["peer_alias_in", "peer_alias_out", "amount_in", "amount_out", "fee", "channel_id_in", "channel_id_out", "timestamp_ns"] := by
  simp [getMetric, NewLightningExporter, metricsTable]

lemma getMetric_net_capacity (ns a b m : String) (t : Nat) (p : Bool) :
    getMetric (NewLightningExporter ns a b m t p) "network_capacity_sats_total" =
      newGlobalMetric ns "network_capacity_sats_total" "network_capacity_sats_total" [] := by
  simp [getMetric, NewLightningExporter, metricsTable]

lemma getMetric_net_channels (ns a b m : String) (t : Nat) (p : Bool) :
    getMetric (NewLightningExporter ns a b m t p) "network_channels_total" =
      newGlobalMetric ns "network_channels_total" "network_channels_total" [] := by
  simp [getMetric, NewLightningExporter, metricsTable]

lemma getMetric_net_nodes (ns a b m : String) (t : Nat) (p : Bool) :
    getMetric (NewLightningExporter ns a b m t p) "network_nodes_total" =
      newGlobalMetric ns "network_nodes_total" "network_nodes_total" [] := by
  simp [getMetric, NewLightningExporter, metricsTable]

lemma getMetric_instance_info (ns a b m : String) (t : Nat) (p : Bool) :
    getMetric (NewLightningExporter ns a b m t p) "instance_info" =
      newGlobalMetric ns "instance_info" "instance_info" ["alias", "pubkey", "version"] := by
  simp [getMetric, NewLightningExporter, metricsTable]

lemma getMetric_wallet (ns a b m : String) (t : Nat) (p : Bool) :
    getMetric (NewLightningExporter ns a b m t p) "wallet_balance_sats" =
      newGlobalMetric ns "wallet_balance_sats" "The wallet balance." ["status"] := by
  simp [getMetric, NewLightningExporter, metricsTable]

lemma getMetric_peers (ns a b m : String) (t : Nat) (p : Bool) :
    getMetric (NewLightningExporter ns a b m t p) "peers" =
      newGlobalMetric ns "peers" "Number of currently connected peers." [] := by
  simp [getMetric, NewLightningExporter, metricsTable]

lemma getMetric_channels (ns a b m : String) (t : Nat) (p : Bool) :
    getMetric (NewLightningExporter ns a b m t p) "channels" =
      newGlobalMetric ns "channels" "Number of channels" ["status"] := by
  simp [getMetric, NewLightningExporter, metricsTable]

lemma getMetric_block_height (ns a b m : String) (t : Nat) (p : Bool) :
    getMetric (NewLightningExporter ns a b m t p) "block_height" =
      newGlobalMetric ns "block_height" "The node’s current view of the height of the best block" [] := by
  simp [getMetric, NewLightningExporter, metricsTable]

lemma getMetric_synced (ns a b m : String) (t : Nat) (p : Bool) :
    getMetric (NewLightningExporter ns a b m t p) "synced_to_chain" =
      newGlobalMetric ns "synced_to_chain" "The node’s current view of the height of the best block" [] := by
  simp [getMetric, NewLightningExporter, metricsTable]

lemma getMetric_limbo (ns a b m : String) (t : Nat) (p : Bool) :
    getMetric (NewLightningExporter ns a b m t p) "channel_limbo_balance_sats" =
      newGlobalMetric ns "channel_limbo_balance_sats" "The balance in satoshis encumbered in pending channels" [] := by
  simp [getMetric, NewLightningExporter, metricsTable]

lemma getMetric_pending (ns a b m : String) (t : Nat) (p : Bool) :
    getMetric (NewLightningExporter ns a b m t p) "channels_pending" =
      newGlobalMetric ns "channel_pending" "The total pending channels" ["status", "forced"] := by
  simp [getMetric, NewLightningExporter, metricsTable]

lemma getMetric_waiting_close (ns a b m : String) (t : Nat) (p : Bool) :
    getMetric (NewLightningExporter ns a b m t p) "channels_waiting_close" =
      newGlobalMetric ns "channel_waiting_close" "Channels waiting for closing tx to confirm" [] := by
  simp [getMetric, NewLightningExporter, metricsTable]

lemma getMetric_channels_balance (ns a b m : String) (t : Nat) (p : Bool) :
    getMetric (NewLightningExporter ns a b m t p) "channels_balance_sats" =
      newGlobalMetric ns "channels_balance_sats" "Sum of all channel funds available" [] := by
  simp [getMetric, NewLightningExporter, metricsTable]

lemma getMetric_chan_balance (ns a b m : String) (t : Nat) (p : Bool) :
    getMetric (NewLightningExporter ns a b m t p) "channel_balance_sats" =
      newGlobalMetric ns "channel_balance_sats" "The channel local balance" ["active", "remote_pubkey", "chan_point", "chan_id", "capacity", "commit_fee", "private", "initiator"] := by
  simp [getMetric, NewLightningExporter, metricsTable]

lemma getMetric_chan_pct (ns a b m : String) (t : Nat) (p : Bool) :
    getMetric (NewLightningExporter ns a b m t p) "channel_balance_percentage" =
      newGlobalMetric ns "channel_balance_percentage" "The channel local balance" ["active", "remote_pubkey", "chan_point", "chan_id", "capacity", "commit_fee", "private", "initiator"] := by
  simp [getMetric, NewLightningExporter, metricsTable]

lemma getMetric_peer_info (ns a b m : String) (t : Nat) (p : Bool) :
    getMetric (NewLightningExporter ns a b m t p) "peer_info" =
      newGlobalMetric ns "peer_info" "peer_info" ["addr", "remote_pubkey", "direction"] := by
  simp [getMetric, NewLightningExporter, metricsTable]

lemma getMetric_peer_recv (ns a b m : String) (t : Nat) (p : Bool) :
    getMetric (NewLightningExporter ns a b m t p) "peer_info_received_bytes_total" =
      newGlobalMetric ns "peer_info_received_bytes_total" "peer_info_received_bytes_total" ["addr"] := by
  simp [getMetric, NewLightningExporter, metricsTable]

lemma getMetric_peer_sent (ns a b m : String) (t : Nat) (p : Bool) :
    getMetric (NewLightningExporter ns a b m t p) "peer_info_sent_bytes_total" =
      newGlobalMetric ns "peer_info_sent_bytes_total" "peer_info_sent_bytes_total" ["addr"] := by
  simp [getMetric, NewLightningExporter, metricsTable]

lemma emitted_emit (s : Sample) : emitted (.emit s) = some s := rfl

lemma filterMap_emitted_comp (l : List Sample) :
    List.filterMap (emitted ∘ ScrapeEvent.emit) l = l := by
  rw [show (emitted ∘ ScrapeEvent.emit) = some from rfl, List.filterMap_some]

lemma filterMap_emitted_map (l : List Sample) :
    (l.map ScrapeEvent.emit).filterMap emitted = l := by
  simp [List.filterMap_map, filterMap_emitted_comp]

lemma filterMap_emitted_probeTrace (m : RpcMethod) (l : List Sample) :
    (probeTrace m l).filterMap emitted = l := by
  simp [probeTrace, emitted, List.filterMap_map, filterMap_emitted_comp]

lemma collectSamples_conn_fail (c : LndExporter) (env : GrpcEnv) (r : RpcResponses)
    (h : getGrpcClient env = none) :
    collectSamples c env r = [upSample c 0] := by
  simp [collectSamples, collectTrace, h, emitted]

lemma collectSamples_info_fail (c : LndExporter) (env : GrpcEnv) (r : RpcResponses)
    (h1 : getGrpcClient env = some ()) (h2 : r.getInfo = none) :
    collectSamples c env r = [upSample c 0] := by
  simp [collectSamples, collectTrace, h1, h2, emitted]

lemma collectSamples_ok (c : LndExporter) (env : GrpcEnv) (r : RpcResponses)
    (stats : GetInfoResponse)
    (h1 : getGrpcClient env = some ()) (h2 : r.getInfo = some stats) :
    collectSamples c env r =
      getInfoSamples c stats ++
      walletBalanceSamples c r.walletBalance ++
      pendingChannelsSamples c r.pendingChannels ++
      channelsBalanceSamples c r.channelBalance ++
      (if c.exportPaymentMetrics then forwardingHistorySamples c r.forwardingHistory
       else []) ++
      networkInfoSamples c r.getNetworkInfo ++
      listChannelsSamples c r.listChannels ++
      (if c.exportPeerMetrics then listPeersSamples c r.listPeers else []) ++
      [upSample c 1] := by
  simp [collectSamples, collectTrace, probesBody, h1, h2, emitted,
    List.filterMap_append, List.filterMap_map, filterMap_emitted_comp,
    filterMap_emitted_probeTrace, apply_ite (List.filterMap emitted)]

lemma probeTrace_events (m : RpcMethod) (l : List Sample) (e : ScrapeEvent)
    (he : e ∈ probeTrace m l) : (∃ m', e = .rpcCall m') ∨ ∃ s, e = .emit s := by
  simp only [probeTrace, List.mem_cons, List.mem_map] at he
  rcases he with rfl | ⟨s, _, rfl⟩
  · exact Or.inl ⟨m, rfl⟩
  · exact Or.inr ⟨s, rfl⟩

lemma probesBody_events (c : LndExporter) (r : RpcResponses) (e : ScrapeEvent)
    (he : e ∈ probesBody c r) : (∃ m', e = .rpcCall m') ∨ ∃ s, e = .emit s := by
  simp only [probesBody, List.mem_append] at he
  rcases he with ((((((h | h) | h) | h) | h) | h) | h)
  · exact probeTrace_events _ _ _ h
  · exact probeTrace_events _ _ _ h
  · exact probeTrace_events _ _ _ h
  · by_cases hb : c.exportPaymentMetrics = true
    · rw [if_pos hb] at h; exact probeTrace_events _ _ _ h
    · rw [if_neg hb] at h; simp at h
  · exact probeTrace_events _ _ _ h
  · exact probeTrace_events _ _ _ h
  · by_cases hb : c.exportPeerMetrics = true
    · rw [if_pos hb] at h; exact probeTrace_events _ _ _ h
    · rw [if_neg hb] at h; simp at h

lemma collectTrace_shape (c : LndExporter) (env : GrpcEnv) (r : RpcResponses) :
    ∃ body, collectTrace c env r = .lock :: body ++ [.unlock] ∧
      ScrapeEvent.lock ∉ body ∧ ScrapeEvent.unlock ∉ body ∧
      body.count ScrapeEvent.connOpen = body.count ScrapeEvent.connClose := by
  rcases h1 : getGrpcClient env with _ | u
  · exact ⟨[.emit (upSample c 0)], by simp [collectTrace, h1], by simp, by simp, by simp⟩
  · rcases h2 : r.getInfo with _ | stats
    · refine ⟨[.connOpen, .setDeadline collectTimeoutSeconds, .rpcCall .getInfo,
        .emit (upSample c 0), .connClose], ?_, by simp, by simp, by simp⟩
      simp [collectTrace, h1, h2]
    · refine ⟨.connOpen :: .setDeadline collectTimeoutSeconds :: .rpcCall .getInfo ::
        ((getInfoSamples c stats).map .emit ++ probesBody c r ++
          [.emit (upSample c 1), .connClose]), ?_, ?_, ?_, ?_⟩
      · simp [collectTrace, h1, h2]
      · intro hmem
        simp only [List.mem_cons, List.mem_append] at hmem
        rcases hmem with h | h | h | (h | h) | h
        · exact ScrapeEvent.noConfusion h
        · exact ScrapeEvent.noConfusion h
        · exact ScrapeEvent.noConfusion h
        · rcases List.mem_map.mp h with ⟨s, _, hs⟩; exact ScrapeEvent.noConfusion hs
        · rcases probesBody_events c r _ h with ⟨m', hm⟩ | ⟨s, hs⟩
          · exact ScrapeEvent.noConfusion hm
          · exact ScrapeEvent.noConfusion hs
        · simp at h
      · intro hmem
        simp only [List.mem_cons, List.mem_append] at hmem
        rcases hmem with h | h | h | (h | h) | h
        · exact ScrapeEvent.noConfusion h
        · exact ScrapeEvent.noConfusion h
        · exact ScrapeEvent.noConfusion h
        · rcases List.mem_map.mp h with ⟨s, _, hs⟩; exact ScrapeEvent.noConfusion hs
        · rcases probesBody_events c r _ h with ⟨m', hm⟩ | ⟨s, hs⟩
          · exact ScrapeEvent.noConfusion hm
          · exact ScrapeEvent.noConfusion hs
        · simp at h
      · have hopen : ((getInfoSamples c stats).map ScrapeEvent.emit ++ probesBody c r ++
            [ScrapeEvent.emit (upSample c 1), ScrapeEvent.connClose]).count
              ScrapeEvent.connOpen = 0 := by
          rw [List.count_eq_zero]
          intro hmem
          simp only [List.mem_append] at hmem
          rcases hmem with (h | h) | h
          · rcases List.mem_map.mp h with ⟨s, _, hs⟩; exact ScrapeEvent.noConfusion hs
          · rcases probesBody_events c r _ h with ⟨m', hm⟩ | ⟨s, hs⟩
            · exact ScrapeEvent.noConfusion hm
            · exact ScrapeEvent.noConfusion hs
          · simp at h
        have hclose : ((getInfoSamples c stats).map ScrapeEvent.emit ++ probesBody c r).count
            ScrapeEvent.connClose = 0 := by
          rw [List.count_eq_zero]
          intro hmem
          simp only [List.mem_append] at hmem
          rcases hmem with h | h
          · rcases List.mem_map.mp h with ⟨s, _, hs⟩; exact ScrapeEvent.noConfusion hs
          · rcases probesBody_events c r _ h with ⟨m', hm⟩ | ⟨s, hs⟩
            · exact ScrapeEvent.noConfusion hm
            · exact ScrapeEvent.noConfusion hs
        simp [List.count_cons, List.count_append] at hopen hclose ⊢
        omega

lemma chanSamples_desc (c : LndExporter) (ch : Channel) (s : Sample)
    (hs : s ∈ chanSamples c ch) :
    s.desc = getMetric c "channel_balance_percentage" ∨
    s.desc = getMetric c "channel_balance_sats" := by
  simp only [chanSamples, List.mem_append, List.mem_cons, List.not_mem_nil, or_false] at hs
  rcases hs with h | rfl
  · split at h
    · simp only [List.mem_cons, List.not_mem_nil, or_false] at h
      subst h; exact Or.inl rfl
    · simp at h
  · exact Or.inr rfl

lemma peerSamples_desc (c : LndExporter) (peer : Peer) (s : Sample)
    (hs : s ∈ peerSamples c peer) :
    s.desc = getMetric c "peer_info" ∨
    s.desc = getMetric c "peer_info_received_bytes_total" ∨
    s.desc = getMetric c "peer_info_sent_bytes_total" := by
  simp only [peerSamples, List.mem_cons, List.not_mem_nil, or_false] at hs
  rcases hs with rfl | rfl | rfl
  · exact Or.inl rfl
  · exact Or.inr (Or.inl rfl)
  · exact Or.inr (Or.inr rfl)

lemma countP_up_getInfo (ns a b m : String) (t : Nat) (p : Bool) (stats : GetInfoResponse) :
    (getInfoSamples (NewLightningExporter ns a b m t p) stats).countP
      (fun s => s.desc == getMetric (NewLightningExporter ns a b m t p) "lnd_up") = 0 := by
  simp [getInfoSamples, getMetric_up, getMetric_instance_info, getMetric_peers,
    getMetric_channels, getMetric_block_height, getMetric_synced, newGlobalMetric]

lemma countP_up_wallet (ns a b m : String) (t : Nat) (p : Bool)
    (resp : Option WalletBalanceResponse) :
    (walletBalanceSamples (NewLightningExporter ns a b m t p) resp).countP
      (fun s => s.desc == getMetric (NewLightningExporter ns a b m t p) "lnd_up") = 0 := by
  cases resp <;>
    simp [walletBalanceSamples, getMetric_up, getMetric_wallet, newGlobalMetric]

lemma countP_up_pending (ns a b m : String) (t : Nat) (p : Bool)
    (resp : Option PendingChannelsResponse) :
    (pendingChannelsSamples (NewLightningExporter ns a b m t p) resp).countP
      (fun s => s.desc == getMetric (NewLightningExporter ns a b m t p) "lnd_up") = 0 := by
  cases resp <;>
    simp [pendingChannelsSamples, getMetric_up, getMetric_limbo, getMetric_pending,
      getMetric_waiting_close, newGlobalMetric]

lemma countP_up_chanbal (ns a b m : String) (t : Nat) (p : Bool)
    (resp : Option ChannelBalanceResponse) :
    (channelsBalanceSamples (NewLightningExporter ns a b m t p) resp).countP
      (fun s => s.desc == getMetric (NewLightningExporter ns a b m t p) "lnd_up") = 0 := by
  cases resp <;>
    simp [channelsBalanceSamples, getMetric_up, getMetric_channels_balance, newGlobalMetric]

lemma countP_up_fwd (ns a b m : String) (t : Nat) (p : Bool)
    (resp : Option ForwardingHistoryResponse) :
    (forwardingHistorySamples (NewLightningExporter ns a b m t p) resp).countP
      (fun s => s.desc == getMetric (NewLightningExporter ns a b m t p) "lnd_up") = 0 := by
  rcases resp with _ | h
  · simp [forwardingHistorySamples]
  · refine List.countP_eq_zero.mpr ?_
    intro s hs
    simp only [forwardingHistorySamples, List.mem_map] at hs
    rcases hs with ⟨f, _, rfl⟩
    simp [getMetric_up, getMetric_fwd, newGlobalMetric]

lemma countP_up_network (ns a b m : String) (t : Nat) (p : Bool)
    (resp : Option NetworkInfoResponse) :
    (networkInfoSamples (NewLightningExporter ns a b m t p) resp).countP
      (fun s => s.desc == getMetric (NewLightningExporter ns a b m t p) "lnd_up") = 0 := by
  cases resp <;>
    simp [networkInfoSamples, getMetric_up, getMetric_net_capacity, getMetric_net_channels,
      getMetric_net_nodes, newGlobalMetric]

lemma countP_up_listChannels (ns a b m : String) (t : Nat) (p : Bool)
    (resp : Option ListChannelsResponse) :
    (listChannelsSamples (NewLightningExporter ns a b m t p) resp).countP
      (fun s => s.desc == getMetric (NewLightningExporter ns a b m t p) "lnd_up") = 0 := by
  rcases resp with _ | l
  · simp [listChannelsSamples]
  · refine List.countP_eq_zero.mpr ?_
    intro s hs
    simp only [listChannelsSamples, List.mem_flatMap] at hs
    rcases hs with ⟨ch, _, hch⟩
    rcases chanSamples_desc _ _ _ hch with h | h <;>
      simp [h, getMetric_up, getMetric_chan_pct, getMetric_chan_balance, newGlobalMetric]

lemma countP_up_listPeers (ns a b m : String) (t : Nat) (p : Bool)
    (resp : Option ListPeersResponse) :
    (listPeersSamples (NewLightningExporter ns a b m t p) resp).countP
      (fun s => s.desc == getMetric (NewLightningExporter ns a b m t p) "lnd_up") = 0 := by
  rcases resp with _ | l
  · simp [listPeersSamples]
  · refine List.countP_eq_zero.mpr ?_
    intro s hs
    simp only [listPeersSamples, List.mem_flatMap] at hs
    rcases hs with ⟨peer, _, hp⟩
    rcases peerSamples_desc _ _ _ hp with h | h | h <;>
      simp [h, getMetric_up, getMetric_peer_info, getMetric_peer_recv, getMetric_peer_sent,
        newGlobalMetric]

/-- C1: every scrape emits exactly one liveness (`lnd_up`) sample, and it is
the last sample of the scrape: value 0 when the session could not be
established (connection failure, or the node-status call failing — the spec's
connection-establishment-class failure — with no probe samples before it),
value 1 at session completion however many probes were skipped. -/
theorem collect_liveness_once_and_last (c : LndExporter) (ns a b m : String) (t : Nat)
    (p : Bool) (hc : c = NewLightningExporter ns a b m t p) (env : GrpcEnv)
    (r : RpcResponses) :
    (collectSamples c env r).countP (fun s => s.desc == getMetric c "lnd_up") = 1 ∧
    (getGrpcClient env = none ∨ r.getInfo = none →
      collectSamples c env r = [upSample c 0]) ∧
    (∀ u stats, getGrpcClient env = some u → r.getInfo = some stats →
      (collectSamples c env r).getLast? = some (upSample c 1)) := by
  subst hc
  refine ⟨?_, ?_, ?_⟩
  · rcases h1 : getGrpcClient env with _ | u
    · rw [collectSamples_conn_fail _ _ _ h1]
      simp [upSample]
    · cases u
      rcases h2 : r.getInfo with _ | stats
      · rw [collectSamples_info_fail _ _ _ h1 h2]
        simp [upSample]
      · rw [collectSamples_ok _ _ _ _ h1 h2]
        simp only [List.countP_append, countP_up_getInfo, countP_up_wallet,
          countP_up_pending, countP_up_chanbal, countP_up_network, countP_up_listChannels,
          apply_ite (List.countP
            (fun s : Sample =>
              s.desc == getMetric (NewLightningExporter ns a b m t p) "lnd_up")),
          countP_up_fwd, countP_up_listPeers, List.countP_nil, ite_self]
        simp [upSample]
  · intro h
    rcases h with h | h
    · exact collectSamples_conn_fail _ _ _ h
    · rcases h1 : getGrpcClient env with _ | u
      · exact collectSamples_conn_fail _ _ _ h1
      · cases u
        exact collectSamples_info_fail _ _ _ h1 h
  · intro u stats h1 h2
    cases u
    rw [collectSamples_ok _ _ _ _ h1 h2, List.getLast?_append_cons]
    rfl

lemma filterMap_callOf_comp (l : List Sample) :
    List.filterMap (callOf ∘ ScrapeEvent.emit) l = [] := by
  rw [show (callOf ∘ ScrapeEvent.emit) = fun _ => none from rfl]
  simp

lemma filterMap_callOf_map_emit (l : List Sample) :
    (l.map ScrapeEvent.emit).filterMap callOf = [] := by
  simp [List.filterMap_map, filterMap_callOf_comp]

lemma filterMap_callOf_probeTrace (m : RpcMethod) (l : List Sample) :
    (probeTrace m l).filterMap callOf = [m] := by
  simp [probeTrace, callOf, List.filterMap_cons, filterMap_callOf_map_emit]

lemma tracedCalls_conn_fail (c : LndExporter) (env : GrpcEnv) (r : RpcResponses)
    (h : getGrpcClient env = none) :
    tracedCalls (collectTrace c env r) = [] := by
  simp [tracedCalls, collectTrace, h, callOf]

lemma tracedCalls_info_fail (c : LndExporter) (env : GrpcEnv) (r : RpcResponses)
    (h1 : getGrpcClient env = some ()) (h2 : r.getInfo = none) :
    tracedCalls (collectTrace c env r) = [.getInfo] := by
  simp [tracedCalls, collectTrace, h1, h2, callOf]

lemma tracedCalls_ok (c : LndExporter) (env : GrpcEnv) (r : RpcResponses)
    (stats : GetInfoResponse)
    (h1 : getGrpcClient env = some ()) (h2 : r.getInfo = some stats) :
    tracedCalls (collectTrace c env r) =
      [RpcMethod.getInfo, RpcMethod.walletBalance, RpcMethod.pendingChannels,
        RpcMethod.channelBalance] ++
      (if c.exportPaymentMetrics then [RpcMethod.forwardingHistory] else []) ++
      [RpcMethod.getNetworkInfo, RpcMethod.listChannels] ++
      (if c.exportPeerMetrics then [RpcMethod.listPeers] else []) := by
  simp [tracedCalls, collectTrace, probesBody, h1, h2, probeTrace,
    List.filterMap_append, List.filterMap_map, filterMap_callOf_comp,
    apply_ite (List.filterMap callOf), callOf]

/-- C2: when connection establishment (credential/token load, TLS setup, or
dial) fails, `Collect` emits exactly the single liveness-0 sample and issues
no RPC call, so no probe is attempted. -/
theorem collect_conn_failure_single_sample (c : LndExporter) (env : GrpcEnv)
    (r : RpcResponses) (h : getGrpcClient env = none) :
    collectSamples c env r = [upSample c 0] ∧
    tracedCalls (collectTrace c env r) = [] :=
  ⟨collectSamples_conn_fail c env r h, tracedCalls_conn_fail c env r h⟩

/-- C3: once the session is established, the output is the concatenation of
each probe's own samples (each a function of that probe's response alone)
followed by liveness 1; a failed probe contributes the empty list, so one
skippable probe's failure neither aborts the session nor disturbs the other
probes' samples. -/
theorem collect_probe_isolation (c : LndExporter) (env : GrpcEnv) (r : RpcResponses)
    (stats : GetInfoResponse)
    (h1 : getGrpcClient env = some ()) (h2 : r.getInfo = some stats) :
    collectSamples c env r =
      getInfoSamples c stats ++
      walletBalanceSamples c r.walletBalance ++
      pendingChannelsSamples c r.pendingChannels ++
      channelsBalanceSamples c r.channelBalance ++
      (if c.exportPaymentMetrics then forwardingHistorySamples c r.forwardingHistory
       else []) ++
      networkInfoSamples c r.getNetworkInfo ++
      listChannelsSamples c r.listChannels ++
      (if c.exportPeerMetrics then listPeersSamples c r.listPeers else []) ++
      [upSample c 1] ∧
    walletBalanceSamples c none = [] ∧
    pendingChannelsSamples c none = [] ∧
    channelsBalanceSamples c none = [] ∧
    forwardingHistorySamples c none = [] ∧
    networkInfoSamples c none = [] ∧
    listChannelsSamples c none = [] ∧
    listPeersSamples c none = [] :=
  ⟨collectSamples_ok c env r stats h1 h2, rfl, rfl, rfl, rfl, rfl, rfl, rfl⟩

lemma chanSamples_intGuard (c : LndExporter) (ch : Channel) :
    chanSamples c ch =
      (if 0 < ch.capacity - ch.commitFee then
        [⟨getMetric c "channel_balance_percentage", .gauge,
          (ch.localBalance : ℚ) / ((ch.capacity - ch.commitFee : Int) : ℚ),
          [formatBool ch.active, ch.remotePubkey, ch.channelPoint, formatUint ch.chanId,
           formatInt ch.capacity, formatInt ch.commitFee, formatBool ch.Private,
           formatBool ch.initiator]⟩]
       else []) ++
      [⟨getMetric c "channel_balance_sats", .gauge, (ch.localBalance : ℚ),
        [formatBool ch.active, ch.remotePubkey, ch.channelPoint, formatUint ch.chanId,
         formatInt ch.capacity, formatInt ch.commitFee, formatBool ch.Private,
         formatBool ch.initiator]⟩] := by
  have hcast : ((ch.capacity : ℚ) - (ch.commitFee : ℚ)) =
      ((ch.capacity - ch.commitFee : Int) : ℚ) := by push_cast; ring
  have hiff : (((ch.capacity - ch.commitFee : Int) : ℚ) > 0) =
      (0 < ch.capacity - ch.commitFee) := by
    rw [gt_iff_lt, Int.cast_pos]
  simp only [chanSamples, hcast, hiff]

/-- C4: for every open channel returned by the channel-list probe, the
balance-ratio sample is emitted iff capacity minus commit fee is strictly
positive, with value local balance divided by that difference, while the
per-channel balance sample is always emitted. -/
theorem channel_ratio_guard (c : LndExporter) (env : GrpcEnv) (r : RpcResponses)
    (stats : GetInfoResponse) (chans : ListChannelsResponse)
    (h1 : getGrpcClient env = some ()) (h2 : r.getInfo = some stats)
    (h3 : r.listChannels = some chans) :
    collectSamples c env r =
      getInfoSamples c stats ++
      walletBalanceSamples c r.walletBalance ++
      pendingChannelsSamples c r.pendingChannels ++
      channelsBalanceSamples c r.channelBalance ++
      (if c.exportPaymentMetrics then forwardingHistorySamples c r.forwardingHistory
       else []) ++
      networkInfoSamples c r.getNetworkInfo ++
      (chans.channels.flatMap fun ch =>
        (if 0 < ch.capacity - ch.commitFee then
          [⟨getMetric c "channel_balance_percentage", .gauge,
            (ch.localBalance : ℚ) / ((ch.capacity - ch.commitFee : Int) : ℚ),
            [formatBool ch.active, ch.remotePubkey, ch.channelPoint, formatUint ch.chanId,
             formatInt ch.capacity, formatInt ch.commitFee, formatBool ch.Private,
             formatBool ch.initiator]⟩]
         else []) ++
        [⟨getMetric c "channel_balance_sats", .gauge, (ch.localBalance : ℚ),
          [formatBool ch.active, ch.remotePubkey, ch.channelPoint, formatUint ch.chanId,
           formatInt ch.capacity, formatInt ch.commitFee, formatBool ch.Private,
           formatBool ch.initiator]⟩]) ++
      (if c.exportPeerMetrics then listPeersSamples c r.listPeers else []) ++
      [upSample c 1] := by
  rw [collectSamples_ok c env r stats h1 h2, h3]
  have : listChannelsSamples c (some chans) =
      chans.channels.flatMap fun ch =>
        (if 0 < ch.capacity - ch.commitFee then
          [⟨getMetric c "channel_balance_percentage", .gauge,
            (ch.localBalance : ℚ) / ((ch.capacity - ch.commitFee : Int) : ℚ),
            [formatBool ch.active, ch.remotePubkey, ch.channelPoint, formatUint ch.chanId,
             formatInt ch.capacity, formatInt ch.commitFee, formatBool ch.Private,
             formatBool ch.initiator]⟩]
         else []) ++
        [⟨getMetric c "channel_balance_sats", .gauge, (ch.localBalance : ℚ),
          [formatBool ch.active, ch.remotePubkey, ch.channelPoint, formatUint ch.chanId,
           formatInt ch.capacity, formatInt ch.commitFee, formatBool ch.Private,
           formatBool ch.initiator]⟩] := by
    simp only [listChannelsSamples]
    rw [funext (chanSamples_intGuard c)]
  rw [this]

/-- C5: on every exit path of a scrape the exclusive lock is taken exactly
once at the start and released exactly once as the very last event, and every
connection that was opened is closed; no branch returns with the lock held or
a connection open. -/
theorem collect_releases_lock_and_connection (c : LndExporter) (env : GrpcEnv)
    (r : RpcResponses) :
    (collectTrace c env r).head? = some .lock ∧
    (collectTrace c env r).getLast? = some .unlock ∧
    (collectTrace c env r).count ScrapeEvent.lock = 1 ∧
    (collectTrace c env r).count ScrapeEvent.unlock = 1 ∧
    (collectTrace c env r).count ScrapeEvent.connOpen =
      (collectTrace c env r).count ScrapeEvent.connClose := by
  obtain ⟨body, heq, hl, hu, hcnt⟩ := collectTrace_shape c env r
  have hbl := List.count_eq_zero.mpr hl
  have hbu := List.count_eq_zero.mpr hu
  rw [heq]
  refine ⟨rfl, ?_, ?_, ?_, ?_⟩
  · rw [show (ScrapeEvent.lock :: body ++ [ScrapeEvent.unlock]) =
      (ScrapeEvent.lock :: body) ++ [ScrapeEvent.unlock] from rfl,
      List.getLast?_append_cons]
    rfl
  · simp [List.count_cons, List.count_append, hbl]
  · simp [List.count_cons, List.count_append, hbu]
  · simp [List.count_cons, List.count_append, hcnt]

/-- C6: `Describe` returns the full fixed non-empty descriptor catalog built
at construction, identical on every call and independent of every
constructor argument except the namespace; being a pure projection of the
immutable catalog, it is unaffected by whatever `Collect` does. -/
theorem describe_fixed (ns a b m : String) (t : Nat) (p : Bool) (a' b' m' : String)
    (t' : Nat) (p' : Bool) :
    Describe (NewLightningExporter ns a b m t p) = (metricsTable ns).map Prod.snd ∧
    Describe (NewLightningExporter ns a b m t p) ≠ [] ∧
    Describe (NewLightningExporter ns a b m t p) =
      Describe (NewLightningExporter ns a' b' m' t' p') :=
  ⟨rfl, by simp [Describe, NewLightningExporter, metricsTable], rfl⟩

/-- C7: the forwarding-activity probe is gated by the
`exportPaymentMetrics` feature flag: with the flag off no forwarding-history
RPC call is issued on any path and the emitted samples are exactly the other
probes' samples, and with the flag on the probe's RPC call is issued whenever
the session reaches the probing phase. -/
theorem forwarding_gated (c : LndExporter) (env : GrpcEnv) (r : RpcResponses) :
    (c.exportPaymentMetrics = false →
      RpcMethod.forwardingHistory ∉ tracedCalls (collectTrace c env r) ∧
      (∀ stats, getGrpcClient env = some () → r.getInfo = some stats →
        collectSamples c env r =
          getInfoSamples c stats ++
          walletBalanceSamples c r.walletBalance ++
          pendingChannelsSamples c r.pendingChannels ++
          channelsBalanceSamples c r.channelBalance ++
          networkInfoSamples c r.getNetworkInfo ++
          listChannelsSamples c r.listChannels ++
          (if c.exportPeerMetrics then listPeersSamples c r.listPeers else []) ++
          [upSample c 1])) ∧
    (c.exportPaymentMetrics = true →
      ∀ stats, getGrpcClient env = some () → r.getInfo = some stats →
        RpcMethod.forwardingHistory ∈ tracedCalls (collectTrace c env r)) := by
  constructor
  · intro hflag
    constructor
    · rcases h1 : getGrpcClient env with _ | u
      · rw [tracedCalls_conn_fail c env r h1]
        simp
      · cases u
        rcases h2 : r.getInfo with _ | stats
        · rw [tracedCalls_info_fail c env r h1 h2]
          simp
        · rw [tracedCalls_ok c env r stats h1 h2, hflag]
          by_cases hp : c.exportPeerMetrics = true
          · rw [if_pos hp]
            simp
          · rw [if_neg hp]
            simp
    · intro stats h1 h2
      rw [collectSamples_ok c env r stats h1 h2, hflag]
      simp
  · intro hflag stats h1 h2
    rw [tracedCalls_ok c env r stats h1 h2, hflag]
    simp

/-- C10: the behaviour of `Collect` is independent of the exporter's stored
`timeout` field, and the session deadline it arms is the constant 15 seconds
hard-coded in `Collect`. -/
theorem collect_ignores_timeout (c : LndExporter) (t : Nat) (env : GrpcEnv)
    (r : RpcResponses) :
    collectTrace { c with timeout := t } env r = collectTrace c env r ∧
    (getGrpcClient env = some () →
      ScrapeEvent.setDeadline collectTimeoutSeconds ∈ collectTrace c env r) ∧
    collectTimeoutSeconds = 15 := by
  refine ⟨?_, ?_, rfl⟩
  · cases c
    rfl
  · intro h
    rcases h2 : r.getInfo with _ | stats <;> simp [collectTrace, h, h2]

lemma labels_upSample (ns a b m : String) (t : Nat) (p : Bool) (v : ℚ) :
    (upSample (NewLightningExporter ns a b m t p) v).desc.labelNames.length =
      (upSample (NewLightningExporter ns a b m t p) v).labelValues.length := by
  simp [upSample, getMetric_up, newGlobalMetric]

lemma labels_getInfo (ns a b m : String) (t : Nat) (p : Bool) (stats : GetInfoResponse) :
    ∀ s ∈ getInfoSamples (NewLightningExporter ns a b m t p) stats,
      s.desc.labelNames.length = s.labelValues.length := by
  intro s hs
  simp only [getInfoSamples, List.mem_cons, List.not_mem_nil, or_false] at hs
  rcases hs with rfl | rfl | rfl | rfl | rfl | rfl | rfl <;>
    simp [getMetric_instance_info, getMetric_peers, getMetric_channels,
      getMetric_block_height, getMetric_synced, newGlobalMetric]

lemma labels_wallet (ns a b m : String) (t : Nat) (p : Bool)
    (resp : Option WalletBalanceResponse) :
    ∀ s ∈ walletBalanceSamples (NewLightningExporter ns a b m t p) resp,
      s.desc.labelNames.length = s.labelValues.length := by
  intro s hs
  rcases resp with _ | w
  · simp [walletBalanceSamples] at hs
  · simp only [walletBalanceSamples, List.mem_cons, List.not_mem_nil, or_false] at hs
    rcases hs with rfl | rfl <;> simp [getMetric_wallet, newGlobalMetric]

lemma labels_pending (ns a b m : String) (t : Nat) (p : Bool)
    (resp : Option PendingChannelsResponse) :
    ∀ s ∈ pendingChannelsSamples (NewLightningExporter ns a b m t p) resp,
      s.desc.labelNames.length = s.labelValues.length := by
  intro s hs
  rcases resp with _ | w
  · simp [pendingChannelsSamples] at hs
  · simp only [pendingChannelsSamples, List.mem_cons, List.not_mem_nil, or_false] at hs
    rcases hs with rfl | rfl | rfl | rfl | rfl <;>
      simp [getMetric_limbo, getMetric_pending, getMetric_waiting_close, newGlobalMetric]

lemma labels_chanbal (ns a b m : String) (t : Nat) (p : Bool)
    (resp : Option ChannelBalanceResponse) :
    ∀ s ∈ channelsBalanceSamples (NewLightningExporter ns a b m t p) resp,
      s.desc.labelNames.length = s.labelValues.length := by
  intro s hs
  rcases resp with _ | w
  · simp [channelsBalanceSamples] at hs
  · simp only [channelsBalanceSamples, List.mem_cons, List.not_mem_nil, or_false] at hs
    subst hs
    simp [getMetric_channels_balance, newGlobalMetric]

lemma labels_fwd (ns a b m : String) (t : Nat) (p : Bool)
    (resp : Option ForwardingHistoryResponse) :
    ∀ s ∈ forwardingHistorySamples (NewLightningExporter ns a b m t p) resp,
      s.desc.labelNames.length = s.labelValues.length := by
  intro s hs
  rcases resp with _ | h
  · simp [forwardingHistorySamples] at hs
  · simp only [forwardingHistorySamples, List.mem_map] at hs
    rcases hs with ⟨f, _, rfl⟩
    simp [getMetric_fwd, newGlobalMetric]

lemma labels_network (ns a b m : String) (t : Nat) (p : Bool)
    (resp : Option NetworkInfoResponse) :
    ∀ s ∈ networkInfoSamples (NewLightningExporter ns a b m t p) resp,
      s.desc.labelNames.length = s.labelValues.length := by
  intro s hs
  rcases resp with _ | n
  · simp [networkInfoSamples] at hs
  · simp only [networkInfoSamples, List.mem_cons, List.not_mem_nil, or_false] at hs
    rcases hs with rfl | rfl | rfl <;>
      simp [getMetric_net_capacity, getMetric_net_channels, getMetric_net_nodes,
        newGlobalMetric]

lemma labels_listChannels (ns a b m : String) (t : Nat) (p : Bool)
    (resp : Option ListChannelsResponse) :
    ∀ s ∈ listChannelsSamples (NewLightningExporter ns a b m t p) resp,
      s.desc.labelNames.length = s.labelValues.length := by
  intro s hs
  rcases resp with _ | l
  · simp [listChannelsSamples] at hs
  · simp only [listChannelsSamples, List.mem_flatMap] at hs
    rcases hs with ⟨ch, _, hch⟩
    rcases chanSamples_desc _ _ _ hch with hd | hd <;>
      · have hv : s.labelValues.length = 8 := by
          simp only [chanSamples, List.mem_append] at hch
          rcases hch with h | h
          · split at h
            · simp only [List.mem_cons, List.not_mem_nil, or_false] at h
              subst h; rfl
            · simp at h
          · simp only [List.mem_cons, List.not_mem_nil, or_false] at h
            subst h; rfl
        rw [hd, hv]
        first
          | rw [getMetric_chan_pct]; rfl
          | rw [getMetric_chan_balance]; rfl

lemma labels_listPeers (ns a b m : String) (t : Nat) (p : Bool)
    (resp : Option ListPeersResponse) :
    ∀ s ∈ listPeersSamples (NewLightningExporter ns a b m t p) resp,
      s.desc.labelNames.length = s.labelValues.length := by
  intro s hs
  rcases resp with _ | l
  · simp [listPeersSamples] at hs
  · simp only [listPeersSamples, List.mem_flatMap] at hs
    rcases hs with ⟨peer, _, hp⟩
    simp only [peerSamples, List.mem_cons, List.not_mem_nil, or_false] at hp
    rcases hp with rfl | rfl | rfl <;>
      simp [getMetric_peer_info, getMetric_peer_recv, getMetric_peer_sent, newGlobalMetric]

/-- C8: every sample emitted on any path carries exactly as many label
values as its descriptor has label names, so the panic branch of
`MustNewConstMetric` is unreachable and `Collect` never raises an error to
its caller. -/
theorem collect_label_counts_match (c : LndExporter) (ns a b m : String) (t : Nat)
    (p : Bool) (hc : c = NewLightningExporter ns a b m t p) (env : GrpcEnv)
    (r : RpcResponses) :
    ∀ s ∈ collectSamples c env r, s.desc.labelNames.length = s.labelValues.length := by
  subst hc
  intro s hs
  rcases h1 : getGrpcClient env with _ | u
  · rw [collectSamples_conn_fail _ _ _ h1] at hs
    simp only [List.mem_cons, List.not_mem_nil, or_false] at hs
    subst hs
    exact labels_upSample ns a b m t p 0
  · cases u
    rcases h2 : r.getInfo with _ | stats
    · rw [collectSamples_info_fail _ _ _ h1 h2] at hs
      simp only [List.mem_cons, List.not_mem_nil, or_false] at hs
      subst hs
      exact labels_upSample ns a b m t p 0
    · rw [collectSamples_ok _ _ _ stats h1 h2] at hs
      simp only [List.mem_append, List.mem_cons, List.not_mem_nil, or_false] at hs
      rcases hs with ((((((((h | h) | h) | h) | h) | h) | h) | h) | rfl)
      · exact labels_getInfo ns a b m t p stats s h
      · exact labels_wallet ns a b m t p _ s h
      · exact labels_pending ns a b m t p _ s h
      · exact labels_chanbal ns a b m t p _ s h
      · revert h
        split
        · intro h
          exact labels_fwd ns a b m t p _ s h
        · intro h
          simp at h
      · exact labels_network ns a b m t p _ s h
      · exact labels_listChannels ns a b m t p _ s h
      · revert h
        split
        · intro h
          exact labels_listPeers ns a b m t p _ s h
        · intro h
          simp at h
      · exact labels_upSample ns a b m t p 1

lemma run_only_B {t : List ScrapeEvent} {ow : Option Tid}
    {l : List (Tid × ScrapeEvent)}
    (h : MuxRun ⟨[], t, ow⟩ l ⟨[], [], none⟩) :
    l = t.map (fun e => (Tid.B, e)) := by
  induction l generalizing t ow with
  | nil =>
    cases h
    rfl
  | cons te l ih =>
    cases h with
    | cons hstep hrun =>
      cases hstep with
      | lockB ra rb => rw [ih hrun]; rfl
      | unlockB ra rb => rw [ih hrun]; rfl
      | stepB e ra rb ow hne1 hne2 => rw [ih hrun]; rfl

lemma run_only_A {t : List ScrapeEvent} {ow : Option Tid}
    {l : List (Tid × ScrapeEvent)}
    (h : MuxRun ⟨t, [], ow⟩ l ⟨[], [], none⟩) :
    l = t.map (fun e => (Tid.A, e)) := by
  induction l generalizing t ow with
  | nil =>
    cases h
    rfl
  | cons te l ih =>
    cases h with
    | cons hstep hrun =>
      cases hstep with
      | lockA ra rb => rw [ih hrun]; rfl
      | unlockA ra rb => rw [ih hrun]; rfl
      | stepA e ra rb ow hne1 hne2 => rw [ih hrun]; rfl

lemma run_A_critical {a : List ScrapeEvent} {rb : List ScrapeEvent}
    {l : List (Tid × ScrapeEvent)}
    (h : MuxRun ⟨a ++ [.unlock], .lock :: rb, some .A⟩ l ⟨[], [], none⟩)
    (ha : ScrapeEvent.unlock ∉ a) :
    ∃ l', l = ((a ++ [ScrapeEvent.unlock]).map (fun e => (Tid.A, e))) ++ l' ∧
      MuxRun ⟨[], .lock :: rb, none⟩ l' ⟨[], [], none⟩ := by
  induction a generalizing l with
  | nil =>
    cases h with
    | cons hstep hrun =>
      cases hstep with
      | unlockA ra rb' => exact ⟨_, rfl, hrun⟩
      | stepA e ra rb' ow hne1 hne2 => exact absurd rfl hne2
      | stepB e ra rb' ow hne1 hne2 => exact absurd rfl hne1
  | cons x a ih =>
    cases h with
    | cons hstep hrun =>
      cases hstep with
      | unlockA ra rb' => exact absurd (List.mem_cons_self _ _) ha
      | stepA e ra rb' ow hne1 hne2 =>
        obtain ⟨l', hl, hrun'⟩ := ih hrun (fun hx => ha (List.mem_cons_of_mem _ hx))
        exact ⟨l', by rw [hl]; rfl, hrun'⟩
      | stepB e ra rb' ow hne1 hne2 => exact absurd rfl hne1

lemma run_B_critical {b : List ScrapeEvent} {ra : List ScrapeEvent}
    {l : List (Tid × ScrapeEvent)}
    (h : MuxRun ⟨.lock :: ra, b ++ [.unlock], some .B⟩ l ⟨[], [], none⟩)
    (hb : ScrapeEvent.unlock ∉ b) :
    ∃ l', l = ((b ++ [ScrapeEvent.unlock]).map (fun e => (Tid.B, e))) ++ l' ∧
      MuxRun ⟨.lock :: ra, [], none⟩ l' ⟨[], [], none⟩ := by
  induction b generalizing l with
  | nil =>
    cases h with
    | cons hstep hrun =>
      cases hstep with
      | unlockB ra' rb => exact ⟨_, rfl, hrun⟩
      | stepB e ra' rb ow hne1 hne2 => exact absurd rfl hne2
      | stepA e ra' rb ow hne1 hne2 => exact absurd rfl hne1
  | cons x b ih =>
    cases h with
    | cons hstep hrun =>
      cases hstep with
      | unlockB ra' rb => exact absurd (List.mem_cons_self _ _) hb
      | stepB e ra' rb ow hne1 hne2 =>
        obtain ⟨l', hl, hrun'⟩ := ih hrun (fun hx => hb (List.mem_cons_of_mem _ hx))
        exact ⟨l', by rw [hl]; rfl, hrun'⟩
      | stepA e ra' rb ow hne1 hne2 => exact absurd rfl hne1

/-- C9: two concurrent scrapes are strictly serialized by the exporter's
mutex: every complete interleaving of their event traces is one whole trace
followed by the other, so the second scrape's connection and probes start
only after the first session has fully ended. -/
theorem scrapes_serialized (c : LndExporter) (env1 env2 : GrpcEnv)
    (r1 r2 : RpcResponses) (l : List (Tid × ScrapeEvent))
    (h : MuxRun ⟨collectTrace c env1 r1, collectTrace c env2 r2, none⟩ l
      ⟨[], [], none⟩) :
    l = (collectTrace c env1 r1).map (fun e => (Tid.A, e)) ++
        (collectTrace c env2 r2).map (fun e => (Tid.B, e)) ∨
    l = (collectTrace c env2 r2).map (fun e => (Tid.B, e)) ++
        (collectTrace c env1 r1).map (fun e => (Tid.A, e)) := by
  obtain ⟨bodyA, heqA, hlA, huA, -⟩ := collectTrace_shape c env1 r1
  obtain ⟨bodyB, heqB, hlB, huB, -⟩ := collectTrace_shape c env2 r2
  rw [heqA, heqB] at h ⊢
  cases h with
  | cons hstep hrun =>
    cases hstep with
    | lockA ra rb =>
      obtain ⟨l', hl, hrun'⟩ := run_A_critical hrun huA
      rw [run_only_B hrun'] at hl
      left
      rw [hl]
      rfl
    | lockB ra rb =>
      obtain ⟨l', hl, hrun'⟩ := run_B_critical hrun huB
      rw [run_only_A hrun'] at hl
      right
      rw [hl]
      rfl
    | stepA e ra rb ow hne1 hne2 => exact absurd rfl hne1
    | stepB e ra rb ow hne1 hne2 => exact absurd rfl hne1

/-- Witness for C1 at concrete inputs. -/
theorem collect_liveness_once_and_last_witness :
    (collectSamples specimenExporter specimenEnv specimenResponses).countP
      (fun s => s.desc == getMetric specimenExporter "lnd_up") = 1 ∧
    (collectSamples specimenExporter specimenEnv specimenResponses).getLast? =
      some (upSample specimenExporter 1) :=
  ⟨(collect_liveness_once_and_last specimenExporter "lnd" "localhost:10009" "tls.cert"
      "admin.macaroon" 15 true rfl specimenEnv specimenResponses).1,
   (collect_liveness_once_and_last specimenExporter "lnd" "localhost:10009" "tls.cert"
      "admin.macaroon" 15 true rfl specimenEnv specimenResponses).2.2 () specimenInfo
      rfl rfl⟩

/-- Witness for C2 at a concrete failing environment. -/
theorem collect_conn_failure_single_sample_witness :
    collectSamples specimenExporter specimenEnvTlsFail specimenResponses =
      [upSample specimenExporter 0] ∧
    tracedCalls (collectTrace specimenExporter specimenEnvTlsFail specimenResponses) = [] :=
  collect_conn_failure_single_sample specimenExporter specimenEnvTlsFail
    specimenResponses rfl

/-- Witness for C3 at concrete inputs whose wallet-balance probe fails. -/
theorem collect_probe_isolation_witness :
    collectSamples specimenExporter specimenEnv specimenResponses =
      getInfoSamples specimenExporter specimenInfo ++
      walletBalanceSamples specimenExporter specimenResponses.walletBalance ++
      pendingChannelsSamples specimenExporter specimenResponses.pendingChannels ++
      channelsBalanceSamples specimenExporter specimenResponses.channelBalance ++
      (if specimenExporter.exportPaymentMetrics then
        forwardingHistorySamples specimenExporter specimenResponses.forwardingHistory
       else []) ++
      networkInfoSamples specimenExporter specimenResponses.getNetworkInfo ++
      listChannelsSamples specimenExporter specimenResponses.listChannels ++
      (if specimenExporter.exportPeerMetrics then
        listPeersSamples specimenExporter specimenResponses.listPeers
       else []) ++
      [upSample specimenExporter 1] ∧
    walletBalanceSamples specimenExporter none = [] ∧
    pendingChannelsSamples specimenExporter none = [] ∧
    channelsBalanceSamples specimenExporter none = [] ∧
    forwardingHistorySamples specimenExporter none = [] ∧
    networkInfoSamples specimenExporter none = [] ∧
    listChannelsSamples specimenExporter none = [] ∧
    listPeersSamples specimenExporter none = [] :=
  collect_probe_isolation specimenExporter specimenEnv specimenResponses specimenInfo
    rfl rfl

/-- Witness for C4, including the spec's numeric example: capacity 100,
commit fee 10, local balance 45 gives a ratio sample of value one half;
capacity 10, commit fee 10 gives no ratio sample but still the balance
sample. -/
theorem channel_ratio_guard_witness :
    collectSamples specimenExporter specimenEnv specimenResponses =
      getInfoSamples specimenExporter specimenInfo ++
      walletBalanceSamples specimenExporter specimenResponses.walletBalance ++
      pendingChannelsSamples specimenExporter specimenResponses.pendingChannels ++
      channelsBalanceSamples specimenExporter specimenResponses.channelBalance ++
      (if specimenExporter.exportPaymentMetrics then
        forwardingHistorySamples specimenExporter specimenResponses.forwardingHistory
       else []) ++
      networkInfoSamples specimenExporter specimenResponses.getNetworkInfo ++
      (specimenChannels.channels.flatMap fun ch =>
        (if 0 < ch.capacity - ch.commitFee then
          [⟨getMetric specimenExporter "channel_balance_percentage", .gauge,
            (ch.localBalance : ℚ) / ((ch.capacity - ch.commitFee : Int) : ℚ),
            [formatBool ch.active, ch.remotePubkey, ch.channelPoint, formatUint ch.chanId,
             formatInt ch.capacity, formatInt ch.commitFee, formatBool ch.Private,
             formatBool ch.initiator]⟩]
         else []) ++
        [⟨getMetric specimenExporter "channel_balance_sats", .gauge, (ch.localBalance : ℚ),
          [formatBool ch.active, ch.remotePubkey, ch.channelPoint, formatUint ch.chanId,
           formatInt ch.capacity, formatInt ch.commitFee, formatBool ch.Private,
           formatBool ch.initiator]⟩]) ++
      (if specimenExporter.exportPeerMetrics then
        listPeersSamples specimenExporter specimenResponses.listPeers
       else []) ++
      [upSample specimenExporter 1] ∧
    chanSamples specimenExporter ⟨true, "02rp", "cp:0", 7, 100, 10, 45, false, true⟩ =
      [⟨getMetric specimenExporter "channel_balance_percentage", .gauge, (1 : ℚ) / 2,
        ["true", "02rp", "cp:0", "7", "100", "10", "false", "true"]⟩,
       ⟨getMetric specimenExporter "channel_balance_sats", .gauge, (45 : ℚ),
        ["true", "02rp", "cp:0", "7", "100", "10", "false", "true"]⟩] ∧
    chanSamples specimenExporter ⟨true, "02rp2", "cp:1", 8, 10, 10, 45, false, true⟩ =
      [⟨getMetric specimenExporter "channel_balance_sats", .gauge, (45 : ℚ),
        ["true", "02rp2", "cp:1", "8", "10", "10", "false", "true"]⟩] :=
  ⟨channel_ratio_guard specimenExporter specimenEnv specimenResponses specimenInfo
    specimenChannels rfl rfl rfl,
   by norm_num [chanSamples, formatBool, formatUint, formatInt]; decide,
   by norm_num [chanSamples, formatBool, formatUint, formatInt]; decide⟩

/-- Witness for C7: a flag-off exporter issues no forwarding-history call,
a flag-on exporter does. -/
theorem forwarding_gated_witness :
    RpcMethod.forwardingHistory ∉
      tracedCalls (collectTrace specimenExporterNoFwd specimenEnv specimenResponses) ∧
    RpcMethod.forwardingHistory ∈
      tracedCalls (collectTrace specimenExporter specimenEnv specimenResponses) :=
  ⟨((forwarding_gated specimenExporterNoFwd specimenEnv specimenResponses).1 rfl).1,
   (forwarding_gated specimenExporter specimenEnv specimenResponses).2 rfl
     specimenInfo rfl rfl⟩

/-- Witness for C8 at a concrete emitted sample. -/
theorem collect_label_counts_match_witness :
    (upSample specimenExporter 0).desc.labelNames.length =
      (upSample specimenExporter 0).labelValues.length :=
  collect_label_counts_match specimenExporter "lnd" "localhost:10009" "tls.cert"
    "admin.macaroon" 15 true rfl specimenEnvTlsFail
    { specimenResponses with getInfo := none }
    (upSample specimenExporter 0) (by decide)

lemma specimenTrace_eq :
    collectTrace specimenExporter specimenEnvTlsFail specimenResponses =
      [.lock, .emit (upSample specimenExporter 0), .unlock] := rfl

lemma specimenRun :
    MuxRun
      ⟨collectTrace specimenExporter specimenEnvTlsFail specimenResponses,
       collectTrace specimenExporter specimenEnvTlsFail specimenResponses, none⟩
      [(Tid.A, .lock), (Tid.A, .emit (upSample specimenExporter 0)), (Tid.A, .unlock),
       (Tid.B, .lock), (Tid.B, .emit (upSample specimenExporter 0)), (Tid.B, .unlock)]
      ⟨[], [], none⟩ := by
  rw [specimenTrace_eq]
  exact MuxRun.cons (MuxStep.lockA _ _)
    (MuxRun.cons (MuxStep.stepA _ _ _ _ (by simp) (by simp))
      (MuxRun.cons (MuxStep.unlockA _ _)
        (MuxRun.cons (MuxStep.lockB _ _)
          (MuxRun.cons (MuxStep.stepB _ _ _ _ (by simp) (by simp))
            (MuxRun.cons (MuxStep.unlockB _ _) (MuxRun.nil _))))))

/-- Witness for C9: a concrete complete interleaving of two scrapes, which
the theorem forces to be sequential. -/
theorem scrapes_serialized_witness :
    [(Tid.A, ScrapeEvent.lock), (Tid.A, .emit (upSample specimenExporter 0)),
     (Tid.A, .unlock), (Tid.B, .lock), (Tid.B, .emit (upSample specimenExporter 0)),
     (Tid.B, .unlock)] =
      (collectTrace specimenExporter specimenEnvTlsFail specimenResponses).map
        (fun e => (Tid.A, e)) ++
      (collectTrace specimenExporter specimenEnvTlsFail specimenResponses).map
        (fun e => (Tid.B, e)) ∨
    [(Tid.A, ScrapeEvent.lock), (Tid.A, .emit (upSample specimenExporter 0)),
     (Tid.A, .unlock), (Tid.B, .lock), (Tid.B, .emit (upSample specimenExporter 0)),
     (Tid.B, .unlock)] =
      (collectTrace specimenExporter specimenEnvTlsFail specimenResponses).map
        (fun e => (Tid.B, e)) ++
      (collectTrace specimenExporter specimenEnvTlsFail specimenResponses).map
        (fun e => (Tid.A, e)) :=
  scrapes_serialized specimenExporter specimenEnvTlsFail specimenEnvTlsFail
    specimenResponses specimenResponses _ specimenRun

/-- Witness for C10 at concrete inputs. -/
theorem collect_ignores_timeout_witness :
    collectTrace { specimenExporter with timeout := 77 } specimenEnv specimenResponses =
      collectTrace specimenExporter specimenEnv specimenResponses ∧
    ScrapeEvent.setDeadline collectTimeoutSeconds ∈
      collectTrace specimenExporter specimenEnv specimenResponses ∧
    collectTimeoutSeconds = 15 :=
  ⟨(collect_ignores_timeout specimenExporter 77 specimenEnv specimenResponses).1,
   (collect_ignores_timeout specimenExporter 77 specimenEnv specimenResponses).2.1 rfl,
   (collect_ignores_timeout specimenExporter 77 specimenEnv specimenResponses).2.2⟩
